import Mathlib

/-!
Shallow embedding of the quality-classification and overlap engine of
pygac-fdr (src/pygac_fdr/metadata.py), together with theorems checking the
natural-language specification against it.

Modelling conventions:
* Timestamps are `Int` nanoseconds since 1970-01-01, exactly the values that
  `astype(np.int64)` produces on `datetime64[ns]` data; the `datetime`
  literals of the `TIME_COVERAGE` table are converted with a civil-calendar
  day count.
* A pandas `DataFrame` of records is a `List Record`; row order is list
  order, row labels are list positions.
* The sort step `DataFrame.sort_values` over the pair of start_time and
  end_time is modelled as a stable insertion sort (the numpy quicksort
  degenerates to insertion sort on
  the small arrays exercised here, so the model agrees with the code on all
  inputs used in witnesses and counterexamples).
* Fallible steps (`TIME_COVERAGE[platform]` raising `KeyError`, pandas
  rejecting `min_periods > window` with `ValueError`) return
  `Except String`.
* The external per-scanline timestamp provider (`xr.open_dataset(...)` plus
  the `acq_time` variable) is a function `String → List Int` keyed by
  filename; the overlap resolver additionally returns the list of filenames
  it fetched, modelling the I/O effect of `xr.open_dataset` in the loop.
-/

set_option maxHeartbeats 1000000

namespace PygacFdr

/-- The quality flag enumeration of metadata.py (`QualityFlags`). -/
inductive QualityFlags where
  | OK
  | INVALID_TIMESTAMP
  | TOO_SHORT
  | TOO_LONG
  | DUPLICATE
  | REDUNDANT
deriving DecidableEq, Repr

/-- One metadata record per level 1c file, as assembled by
`MetadataCollector._collect_metadata`.  Only the fields the classification
and overlap engine reads are modelled; `overlap_free_start/end` start out as
`none` (NaN). -/
structure Record where
  platform : String
  start_time : Int
  end_time : Int
  along_track : Nat
  filename : String
  global_quality_flag : QualityFlags := .OK
  overlap_free_start : Option Int := none
  overlap_free_end : Option Int := none
deriving DecidableEq, Repr

/-- Days between a proleptic-Gregorian civil date and 1970-01-01
(the days_from_civil algorithm of Howard Hinnant; all divisions act on nonnegative
operands for the dates occurring in `TIME_COVERAGE`). -/
def daysFromCivil (y m d : Int) : Int :=
  let yy := if m ≤ 2 then y - 1 else y
  let era := (if 0 ≤ yy then yy else yy - 399) / 400
  let yoe := yy - era * 400
  let doy := (153 * (if 2 < m then m - 3 else m + 9) + 2) / 5 + d - 1
  let doe := yoe * 365 + yoe / 4 - yoe / 100 + doy
  era * 146097 + doe - 719468

/-- Civil datetime given as year, month, day, hour, minute, converted to
int64 nanoseconds since the epoch. -/
def dtNs (y m d h mi : Int) : Int :=
  (((daysFromCivil y m d * 24 + h) * 60 + mi) * 60) * 1000000000

/-- The `TIME_COVERAGE` table of metadata.py: platform name to
`(valid_min, valid_max)`; `none` as upper bound means still operating. -/
def TIME_COVERAGE : List (String × Int × Option Int) :=
  [("METOP-A", dtNs 2007 6 28 23 14, none),
   ("METOP-B", dtNs 2013 1 1 1 1, none),
   ("NOAA-6", dtNs 1980 1 1 0 0, some (dtNs 1982 8 3 0 39)),
   ("NOAA-7", dtNs 1981 8 24 0 13, some (dtNs 1985 2 1 22 21)),
   ("NOAA-8", dtNs 1983 5 4 19 9, some (dtNs 1985 10 14 3 26)),
   ("NOAA-9", dtNs 1985 2 25 0 13, some (dtNs 1988 11 7 21 18)),
   ("NOAA-10", dtNs 1986 11 17 1 22, some (dtNs 1991 9 16 21 19)),
   ("NOAA-11", dtNs 1988 11 8 0 16, some (dtNs 1994 10 16 23 27)),
   ("NOAA-12", dtNs 1991 9 16 0 17, some (dtNs 1998 12 14 20 43)),
   ("NOAA-14", dtNs 1995 1 20 0 37, some (dtNs 2002 10 7 22 47)),
   ("NOAA-15", dtNs 1998 10 26 0 54, none),
   ("NOAA-16", dtNs 2001 1 1 0 0, some (dtNs 2011 12 31 23 40)),
   ("NOAA-17", dtNs 2002 6 25 5 41, some (dtNs 2011 12 31 19 11)),
   ("NOAA-18", dtNs 2005 5 20 18 17, none),
   ("NOAA-19", dtNs 2009 2 6 18 32, none),
   ("TIROS-N", dtNs 1978 11 5 9 8, some (dtNs 1980 1 30 17 3))]

/-- Constructor arguments of `MetadataCollector.__init__`:
`min_num_lines` and `min_duration` (the latter converted to nanoseconds,
mirroring np.timedelta64 minutes under datetime64[ns]
arithmetic). -/
structure Config where
  min_num_lines : Nat
  min_duration : Int

/-- Defaults `min_num_lines=50`, `min_duration=5` minutes. -/
def defaultConfig : Config :=
  { min_num_lines := 50, min_duration := 5 * 60 * 1000000000 }

/-- Sentinel datetime64 2030-01-01 00:00 used when a platform has no
upper coverage bound. -/
def sentinel2030 : Int := dtNs 2030 1 1 0 0

/-- Predicate of `_set_invalid_timestamp_flag`: timestamp out of the
coverage range of the platform, or negative duration. -/
def invalidPred (validMin validMax : Int) (r : Record) : Bool :=
  (decide (r.start_time < validMin) || decide (validMax < r.start_time) ||
   decide (r.end_time < validMin) || decide (validMax < r.end_time)) ||
  decide (r.end_time < r.start_time)

/-- Model of `_set_invalid_timestamp_flag`: looks the platform up in
`TIME_COVERAGE` (a missing platform raises `KeyError`) and overwrites the
flag of every out-of-range or negative-duration record. -/
def setInvalidTimestampFlag (coverage : List (String × Int × Option Int))
    (platform : String) (df : List Record) : Except String (List Record) :=
  match coverage.lookup platform with
  | none => Except.error ("KeyError: " ++ platform)
  | some (vmin, vmaxO) =>
    let vmax := vmaxO.getD sentinel2030
    Except.ok (df.map (fun r =>
      if invalidPred vmin vmax r then
        { r with global_quality_flag := .INVALID_TIMESTAMP }
      else r))

/-- Absolute value of an int64 timedelta. -/
def intAbs (x : Int) : Int := if x < 0 then -x else x

/-- Predicate of `_set_too_short_flag`: too few scanlines or too short a
duration. -/
def tooShortPred (cfg : Config) (r : Record) : Bool :=
  decide (r.along_track < cfg.min_num_lines) ||
  decide (intAbs (r.end_time - r.start_time) < cfg.min_duration)

/-- Model of `_set_too_short_flag`. -/
def setTooShortFlag (cfg : Config) (df : List Record) : List Record :=
  df.map (fun r =>
    if tooShortPred cfg r then { r with global_quality_flag := .TOO_SHORT } else r)

/-- Default `max_length=120` minutes of `_set_too_long_flag`, in ns. -/
def defaultMaxLength : Int := 120 * 60 * 1000000000

/-- Predicate of `_set_too_long_flag`: `end_time - start_time > max_length`. -/
def tooLongPred (maxLength : Int) (r : Record) : Bool :=
  decide (maxLength < r.end_time - r.start_time)

/-- Model of `_set_too_long_flag`. -/
def setTooLongFlag (maxLength : Int) (df : List Record) : List Record :=
  df.map (fun r =>
    if tooLongPred maxLength r then { r with global_quality_flag := .TOO_LONG } else r)

/-- The inner `is_redundant` of `_set_redundant_flag`: over one rolling
window of `(start_time, end_time)` pairs whose last element is the current
record, test whether some other window element contains the current
interval of the current record (start_times[-1] >= start_times and
`end_times[-1] <= end_times`, with the last position forced to False). -/
def is_redundant (window : List (Int × Int)) : Bool :=
  match window.getLast? with
  | none => false
  | some cur =>
    window.dropLast.any (fun je => decide (je.1 ≤ cur.1) && decide (cur.2 ≤ je.2))

/-- One evaluation of `rolling(window, min_periods=2).apply(is_redundant)`
at position `i` of the OK pair list: the window holds positions
`i+1-W .. i`; windows with fewer than two observations yield NaN, which
`fillna(0)` maps to False. -/
def rollingIsRedundant (W : Nat) (ps : List (Int × Int)) (i : Nat) : Bool :=
  if ((ps.take (i + 1)).drop (i + 1 - W)).length < 2 then false
  else is_redundant ((ps.take (i + 1)).drop (i + 1 - W))

/-- The `(start_time, end_time)` pairs of the OK rows, in order
(`df_ok` of `_set_redundant_flag` after the int64 conversion). -/
def okPairs (df : List Record) : List (Int × Int) :=
  (df.filter (fun r => decide (r.global_quality_flag = QualityFlags.OK))).map
    (fun r => (r.start_time, r.end_time))

/-- Walk the frame; each OK row is the `pos`-th row of `df_ok` and receives
`REDUNDANT` exactly when its rolling evaluation returned True (the `df.loc`
write-back indexed by the original labels of the OK rows). -/
def setRedundantFlagGo (W : Nat) (ps : List (Int × Int)) :
    Nat → List Record → List Record
  | _, [] => []
  | pos, r :: rest =>
    if r.global_quality_flag = QualityFlags.OK then
      (if rollingIsRedundant W ps pos then
          { r with global_quality_flag := .REDUNDANT }
        else r) :: setRedundantFlagGo W ps (pos + 1) rest
    else
      r :: setRedundantFlagGo W ps pos rest

/-- Model of `_set_redundant_flag` in the well-formed case of a window of
at least 2. -/
def setRedundantFlagCore (W : Nat) (df : List Record) : List Record :=
  setRedundantFlagGo W (okPairs df) 0 df

/-- Model of `_set_redundant_flag`: pandas rejects min_periods 2 exceeding the
window with a `ValueError`, so a window smaller than 2 fails. -/
def setRedundantFlag (W : Nat) (df : List Record) : Except String (List Record) :=
  if W < 2 then Except.error "ValueError: min_periods 2 must be smaller or equal window"
  else Except.ok (setRedundantFlagCore W df)

/-- Predicate of `_set_duplicate_flag` for one row given the rows before it:
DataFrame.duplicated over platform, start_time and end_time with
keep=first. -/
def duplicatePred (seen : List Record) (r : Record) : Bool :=
  seen.any (fun r2 =>
    decide (r2.platform = r.platform) && decide (r2.start_time = r.start_time) &&
    decide (r2.end_time = r.end_time))

/-- Accumulator walk of `_set_duplicate_flag`. -/
def setDuplicateFlagGo : List Record → List Record → List Record
  | _, [] => []
  | seen, r :: rest =>
    (if duplicatePred seen r then { r with global_quality_flag := .DUPLICATE } else r)
      :: setDuplicateFlagGo (seen ++ [r]) rest

/-- Model of `_set_duplicate_flag`: every record after the first of each
`(platform, start_time, end_time)` group is overwritten to `DUPLICATE`. -/
def setDuplicateFlag (df : List Record) : List Record :=
  setDuplicateFlagGo [] df

/-- Model of `_set_global_qual_flags`: the five rules in their fixed order; the
redundancy rule is invoked with its default window 20. An exception from
any rule propagates. -/
def setGlobalQualFlags (cfg : Config) (coverage : List (String × Int × Option Int))
    (platform : String) (df : List Record) : Except String (List Record) :=
  match setInvalidTimestampFlag coverage platform df with
  | Except.error e => Except.error e
  | Except.ok df1 =>
    match setRedundantFlag 20 (setTooLongFlag defaultMaxLength (setTooShortFlag cfg df1)) with
    | Except.error e => Except.error e
    | Except.ok df4 => Except.ok (setDuplicateFlag df4)

/-- Behaviour of np.argmax on a boolean mask: index of the first True, and 0 when no
element is True. -/
def argmaxBool (mask : List Bool) : Nat :=
  if mask.any (fun b => b) then mask.findIdx (fun b => b) else 0

/-- First-match search for a scanline timestamp strictly above t. -/
def firstIdxGt (ts : List Int) (t : Int) : Nat :=
  argmaxBool (ts.map (fun x => decide (t < x)))

/-- First-match search for a scanline timestamp at or above t. -/
def firstIdxGe (ts : List Int) (t : Int) : Nat :=
  argmaxBool (ts.map (fun x => decide (t ≤ x)))

/-- The overlap bounds `_calc_overlap` assigns to the `i`-th row of the
OK-filtered frame `ok` (`none` in the second component means the row keeps
its previous `overlap_free_end`, the `open_end` case). -/
def overlapBounds (acq : String → List Int) (openEnd : Bool)
    (ok : List Record) (i : Nat) : Option Int × Option Int :=
  match ok[i]? with
  | none => (none, none)
  | some row =>
    let ts := acq row.filename
    let startB : Option Int :=
      if 0 < i then
        match ok[i - 1]? with
        | some prev =>
          if prev.end_time ≥ row.start_time then
            some ((firstIdxGt ts prev.end_time : Nat) : Int)
          else some 0
        | none => some 0
      else some 0
    let endB : Option Int :=
      match ok[i + 1]? with
      | some next =>
        if row.end_time ≥ next.start_time then
          some (((firstIdxGe ts next.start_time : Nat) : Int) - 1)
        else some ((row.along_track : Int) - 1)
      | none => if openEnd then none else some ((row.along_track : Int) - 1)
    (startB, endB)

/-- Loop of `_calc_overlap` over the full frame: OK rows are numbered by
their position in the OK-filtered frame and receive the bounds of
`overlapBounds`; the filename of every OK row is fetched through
`xr.open_dataset` (second component), non-OK rows are untouched. -/
def calcOverlapGo (acq : String → List Int) (openEnd : Bool) (ok : List Record) :
    Nat → List Record → List Record × List String
  | _, [] => ([], [])
  | pos, r :: rest =>
    if r.global_quality_flag = QualityFlags.OK then
      let b := overlapBounds acq openEnd ok pos
      let r' := { r with
        overlap_free_start := match b.1 with | some v => some v | none => r.overlap_free_start,
        overlap_free_end := match b.2 with | some v => some v | none => r.overlap_free_end }
      let res := calcOverlapGo acq openEnd ok (pos + 1) rest
      (r' :: res.1, r.filename :: res.2)
    else
      let res := calcOverlapGo acq openEnd ok pos rest
      (r :: res.1, res.2)

/-- Model of `_calc_overlap`: returns the updated frame and the list of filenames
fetched from the per-scanline timestamp provider. -/
def calcOverlap (acq : String → List Int) (openEnd : Bool) (df : List Record) :
    List Record × List String :=
  calcOverlapGo acq openEnd
    (df.filter (fun r => decide (r.global_quality_flag = QualityFlags.OK))) 0 df

/-- Sort key of the sort step: ascending by start_time, then end_time. -/
def timeKeyLe (a b : Record) : Prop :=
  a.start_time < b.start_time ∨
    (a.start_time = b.start_time ∧ a.end_time ≤ b.end_time)

instance : DecidableRel timeKeyLe := fun a b => by
  unfold timeKeyLe; exact inferInstance

instance : IsTotal Record timeKeyLe :=
  ⟨by intro a b; unfold timeKeyLe; omega⟩

instance : IsTrans Record timeKeyLe :=
  ⟨by intro a b c; unfold timeKeyLe; omega⟩

/-- The sort step of `get_metadata` (stable sort by
`(start_time, end_time)`). -/
def sortByTime (records : List Record) : List Record :=
  List.insertionSort timeKeyLe records

/-- The whole pipeline for one platform group: classification
(`_set_global_qual_flags`) followed by overlap resolution
(`_calc_overlap`, `open_end=False`). -/
def platformResult (cfg : Config) (coverage : List (String × Int × Option Int))
    (acq : String → List Int) (p : String) (records : List Record) :
    Except String (List Record) :=
  match setGlobalQualFlags cfg coverage p
      ((sortByTime records).filter (fun r => decide (r.platform = p))) with
  | Except.error e => Except.error e
  | Except.ok flagged => Except.ok (calcOverlap acq false flagged).1

/-- Group keys in order of first appearance. -/
def uniquePlatforms : List String → List String
  | [] => []
  | x :: xs => x :: (uniquePlatforms xs).filter (fun y => decide (y ≠ x))

/-- Model of the groupby-apply over platforms: process the groups in order and
concatenate their results; an exception in any group aborts the whole
call. -/
def groupResults (cfg : Config) (coverage : List (String × Int × Option Int))
    (acq : String → List Int) (records : List Record) :
    List String → Except String (List Record)
  | [] => Except.ok []
  | p :: rest =>
    match platformResult cfg coverage acq p records with
    | Except.error e => Except.error e
    | Except.ok g =>
      match groupResults cfg coverage acq records rest with
      | Except.error e => Except.error e
      | Except.ok gs => Except.ok (g ++ gs)

/-- Model of `MetadataCollector.get_metadata`: sort, group by platform, classify and
resolve overlap per group. -/
def get_metadata (cfg : Config) (coverage : List (String × Int × Option Int))
    (acq : String → List Int) (records : List Record) :
    Except String (List Record) :=
  groupResults cfg coverage acq records
    (uniquePlatforms ((sortByTime records).map (fun r => r.platform)))

/-- Number of OK rows of a frame (the position a trailing OK row would take
in the OK-filtered frame). -/
def okCount (df : List Record) : Nat :=
  (df.filter (fun r => decide (r.global_quality_flag = QualityFlags.OK))).length

/-- Sanity check of the civil-date conversion: the epoch maps to day 0. -/
example : daysFromCivil 1970 1 1 = 0 := by decide

example : daysFromCivil 1970 3 1 = 59 := by decide

example : daysFromCivil 1980 1 1 = 3652 := by decide

/-! ### Helper lemmas: redundancy detector -/

lemma rollingIsRedundant_zero (W : Nat) (ps : List (Int × Int)) :
    rollingIsRedundant W ps 0 = false := by
  have h1 : ((ps.take (0 + 1)).drop (0 + 1 - W)).length < 2 := by
    have h2 := List.length_take (0 + 1) ps
    have h3 := List.length_drop (0 + 1 - W) (ps.take (0 + 1))
    omega
  unfold rollingIsRedundant
  rw [if_pos h1]

lemma setRedundantFlag_ok {W : Nat} {df out : List Record}
    (h : setRedundantFlag W df = Except.ok out) :
    2 ≤ W ∧ out = setRedundantFlagCore W df := by
  unfold setRedundantFlag at h
  by_cases hW : W < 2
  · rw [if_pos hW] at h; exact absurd h (by simp)
  · rw [if_neg hW] at h
    injection h with h
    exact ⟨by omega, h.symm⟩

/-- Core characterisation of one rolling evaluation: at a position `i > 0`
holding pair `cur`, the detector fires exactly when some strictly earlier
position `j` inside the window of the last `W` rows (current row included)
holds a containing interval. -/
lemma rollingIsRedundant_iff {W i : Nat} {ps : List (Int × Int)} {cur : Int × Int}
    (hcur : ps[i]? = some cur) (h0 : 0 < i) :
    rollingIsRedundant W ps i = true ↔
      ∃ j q, i < j + W ∧ j < i ∧ ps[j]? = some q ∧
        q.1 ≤ cur.1 ∧ cur.2 ≤ q.2 := by
  have hlen : i < ps.length := by
    rcases List.getElem?_eq_some.mp hcur with ⟨h, _⟩; exact h
  by_cases hW : 2 ≤ W
  · have htake : ps.take (i + 1) = ps.take i ++ [cur] := by
      rw [List.take_succ, hcur]; rfl
    have hts : (ps.take i).length = i := by
      rw [List.length_take]; omega
    have hdrop : (ps.take (i + 1)).drop (i + 1 - W) =
        (ps.take i).drop (i + 1 - W) ++ [cur] := by
      rw [htake, List.drop_append_of_le_length (by omega)]
    have hlen2 : ¬ ((ps.take (i + 1)).drop (i + 1 - W)).length < 2 := by
      rw [hdrop, List.length_append, List.length_drop, hts]
      simp; omega
    unfold rollingIsRedundant
    rw [if_neg hlen2, hdrop]
    unfold is_redundant
    rw [List.getLast?_concat, List.dropLast_concat, List.any_eq_true]
    constructor
    · rintro ⟨q, hq, hcond⟩
      rcases List.mem_iff_getElem?.mp hq with ⟨m, hm⟩
      rw [List.getElem?_drop] at hm
      have hmlt : (i + 1 - W) + m < i := by
        rcases List.getElem?_eq_some.mp hm with ⟨hlt, _⟩
        rw [List.length_take] at hlt; omega
      rw [List.getElem?_take, if_pos hmlt] at hm
      refine ⟨(i + 1 - W) + m, q, by omega, hmlt, hm, ?_, ?_⟩
      · have := (Bool.and_eq_true _ _).mp hcond
        exact of_decide_eq_true this.1
      · have := (Bool.and_eq_true _ _).mp hcond
        exact of_decide_eq_true this.2
    · rintro ⟨j, q, hjW, hji, hjq, hq1, hq2⟩
      refine ⟨q, ?_, ?_⟩
      · apply List.mem_iff_getElem?.mpr
        refine ⟨j - (i + 1 - W), ?_⟩
        rw [List.getElem?_drop, List.getElem?_take]
        have harith : (i + 1 - W) + (j - (i + 1 - W)) = j := by omega
        rw [harith, if_pos hji]
        exact hjq
      · simp [hq1, hq2]
  · constructor
    · intro habs
      exfalso
      have hlen2 : ((ps.take (i + 1)).drop (i + 1 - W)).length < 2 := by
        rw [List.length_drop, List.length_take]; omega
      unfold rollingIsRedundant at habs
      rw [if_pos hlen2] at habs
      exact Bool.false_ne_true habs
    · rintro ⟨j, q, hjW, hji, -⟩
      omega

/-- A row of a filtered list, located by the number of earlier rows kept. -/
lemma filter_getElem_of_pred {α : Type} {p : α → Bool} :
    ∀ (l : List α) (k : Nat) (r : α),
      l[k]? = some r → p r = true →
      (l.filter p)[((l.take k).filter p).length]? = some r := by
  intro l
  induction l with
  | nil => intro k r h _; simp at h
  | cons x xs ih =>
    intro k r hk hp
    cases k with
    | zero =>
      rw [List.getElem?_cons_zero] at hk
      injection hk with hk
      subst hk
      simp [List.filter_cons, hp]
    | succ k =>
      rw [List.getElem?_cons_succ] at hk
      rw [List.take_succ_cons, List.filter_cons, List.filter_cons]
      by_cases hx : p x
      · rw [if_pos hx, if_pos hx]
        simp only [List.length_cons, List.getElem?_cons_succ]
        exact ih k r hk hp
      · rw [if_neg hx, if_neg hx]
        exact ih k r hk hp

lemma okPairs_getElem {df : List Record} {k : Nat} {r : Record}
    (hk : df[k]? = some r) (hr : r.global_quality_flag = QualityFlags.OK) :
    (okPairs df)[okCount (df.take k)]? = some (r.start_time, r.end_time) := by
  unfold okPairs okCount
  rw [List.getElem?_map, filter_getElem_of_pred df k r hk (by simp [hr])]
  rfl

/-- Element-wise description of the write-back of the redundant flags. -/
lemma setRedundantFlagGo_getElem (W : Nat) (ps : List (Int × Int)) :
    ∀ (l : List Record) (pos k : Nat),
      (setRedundantFlagGo W ps pos l)[k]? =
        (l[k]?).map (fun r =>
          if r.global_quality_flag = QualityFlags.OK then
            (if rollingIsRedundant W ps (pos + okCount (l.take k)) then
              { r with global_quality_flag := QualityFlags.REDUNDANT }
            else r)
          else r) := by
  intro l
  induction l with
  | nil => intro pos k; simp [setRedundantFlagGo]
  | cons x xs ih =>
    intro pos k
    cases k with
    | zero =>
      simp only [List.take_zero, List.filter_nil, okCount, List.length_nil,
        Nat.add_zero, List.getElem?_cons_zero, Option.map_some]
      by_cases hx : x.global_quality_flag = QualityFlags.OK
      · simp [setRedundantFlagGo, hx]
      · simp [setRedundantFlagGo, hx]
    | succ k =>
      simp only [List.getElem?_cons_succ, List.take_succ_cons]
      by_cases hx : x.global_quality_flag = QualityFlags.OK
      · have hcnt : okCount (x :: xs.take k) = okCount (xs.take k) + 1 := by
          simp [okCount, List.filter_cons, hx]
        have harith : pos + 1 + okCount (xs.take k) = pos + (okCount (xs.take k) + 1) := by
          omega
        simp only [hcnt]
        simp only [setRedundantFlagGo, if_pos hx, List.getElem?_cons_succ]
        rw [ih (pos + 1) k]
        simp only [harith]
      · have hcnt : okCount (x :: xs.take k) = okCount (xs.take k) := by
          simp [okCount, List.filter_cons, hx]
        simp only [hcnt]
        simp only [setRedundantFlagGo, if_neg hx, List.getElem?_cons_succ]
        exact ih pos k

/-! ### Claim C1 -/

/-- Claim C1: on the OK-filtered, time-sorted subsequence, the row at
OK-position `okCount (df.take k)` is flagged REDUNDANT iff some strictly
earlier record inside the look-back window starts no later and ends no
earlier (so a record is never redundant against itself), and the first OK
record is never flagged REDUNDANT. -/
theorem claim_C1_redundancy (W : Nat) (df out : List Record) (k : Nat) (r : Record)
    (hout : setRedundantFlag W df = Except.ok out)
    (hk : df[k]? = some r) (hok : r.global_quality_flag = QualityFlags.OK) :
    (out[k]? = some { r with global_quality_flag := QualityFlags.REDUNDANT } ↔
      0 < okCount (df.take k) ∧
        ∃ j q, okCount (df.take k) < j + W ∧ j < okCount (df.take k) ∧
          (okPairs df)[j]? = some q ∧
          q.1 ≤ r.start_time ∧ r.end_time ≤ q.2) ∧
    (okCount (df.take k) = 0 → out[k]? = some r) := by
  obtain ⟨hW, hcore⟩ := setRedundantFlag_ok hout
  subst hcore
  unfold setRedundantFlagCore
  have hget := setRedundantFlagGo_getElem W (okPairs df) df 0 k
  rw [hk] at hget
  simp only [Option.map_some'] at hget
  rw [if_pos hok] at hget
  simp only [Nat.zero_add] at hget
  constructor
  · constructor
    · intro hmem
      rw [hget] at hmem
      injection hmem with hmem
      by_cases hred : rollingIsRedundant W (okPairs df) (okCount (df.take k)) = true
      · have h0 : 0 < okCount (df.take k) := by
          rcases Nat.eq_zero_or_pos (okCount (df.take k)) with h | h
          · rw [h, rollingIsRedundant_zero] at hred
            exact absurd hred (by simp)
          · exact h
        exact ⟨h0, (rollingIsRedundant_iff (okPairs_getElem hk hok) h0).mp hred⟩
      · exfalso
        rw [Bool.not_eq_true] at hred
        rw [hred] at hmem
        simp only [Bool.false_eq_true, if_false] at hmem
        have hflag := congrArg Record.global_quality_flag hmem
        simp [hok] at hflag
    · rintro ⟨h0, j, q, hjw, hji, hjq, h1, h2⟩
      have hred : rollingIsRedundant W (okPairs df) (okCount (df.take k)) = true :=
        (rollingIsRedundant_iff (okPairs_getElem hk hok) h0).mpr ⟨j, q, hjw, hji, hjq, h1, h2⟩
      rw [hget, hred]
      simp
  · intro h0
    rw [hget, h0, rollingIsRedundant_zero]
    simp

/-- Concrete frame for the C1 witness: the interval of the second record is
contained in that of the first. -/
def wRecA : Record :=
  { platform := "P", start_time := 0, end_time := 1000, along_track := 100,
    filename := "wa" }

def wRecB : Record :=
  { platform := "P", start_time := 10, end_time := 500, along_track := 100,
    filename := "wb" }

theorem claim_C1_redundancy_witness :
    (setRedundantFlagCore 20 [wRecA, wRecB])[1]? =
      some { wRecB with global_quality_flag := QualityFlags.REDUNDANT } :=
  ((claim_C1_redundancy 20 [wRecA, wRecB] (setRedundantFlagCore 20 [wRecA, wRecB]) 1 wRecB
      rfl (by decide) (by decide)).1).mpr
    ⟨by decide, 0, (0, 1000), by decide, by decide, by decide, by decide, by decide⟩

/-! ### Claim C4 -/

/-- Claim C4 is false as stated: with window `W = 2` the candidate set holds
only `min(i, W-1) = 1` preceding record, not `min(i, W) = 2`: position 2 is
contained in position 0 (a candidate according to the claim) yet the
detector does not fire. -/
theorem claim_C4_counterexample :
    rollingIsRedundant 2 [((0 : Int), (100 : Int)), (5, 6), (1, 50)] 2 = false ∧
    ([((0 : Int), (100 : Int)), (5, 6), (1, 50)])[2]? = some (1, 50) ∧
    (∃ j q, (2 : Nat) - min 2 2 ≤ j ∧ j < 2 ∧
      ([((0 : Int), (100 : Int)), (5, 6), (1, 50)])[j]? = some q ∧
      q.1 ≤ 1 ∧ 50 ≤ q.2) :=
  ⟨by decide, by decide,
    ⟨0, (0, 100), by decide, by decide, by decide, by decide, by decide⟩⟩

/-- Claim C4 amended: the candidate set in the look-back window is record
`i` itself plus its `min(i, W-1)` preceding OK records (the pandas rolling
window of size `W` includes the current row, so with the default `W = 20` up
to 19 preceding records are examined). -/
theorem claim_C4_window_amended (W : Nat) (ps : List (Int × Int)) (i : Nat)
    (cur : Int × Int) (hcur : ps[i]? = some cur) (h0 : 0 < i) :
    rollingIsRedundant W ps i = true ↔
      ∃ j q, i - min i (W - 1) ≤ j ∧ j < i ∧ ps[j]? = some q ∧
        q.1 ≤ cur.1 ∧ cur.2 ≤ q.2 := by
  rw [rollingIsRedundant_iff hcur h0]
  constructor
  · rintro ⟨j, q, hjW, hji, hjq, h1, h2⟩
    exact ⟨j, q, by omega, hji, hjq, h1, h2⟩
  · rintro ⟨j, q, hjW, hji, hjq, h1, h2⟩
    exact ⟨j, q, by omega, hji, hjq, h1, h2⟩

theorem claim_C4_window_amended_witness :
    rollingIsRedundant 3 [((0 : Int), (100 : Int)), (5, 6), (1, 50)] 2 = true :=
  (claim_C4_window_amended 3 [((0 : Int), (100 : Int)), (5, 6), (1, 50)] 2 (1, 50)
      (by decide) (by decide)).mpr
    ⟨0, (0, 100), by decide, by decide, by decide, by decide, by decide⟩

/-! ### Claim C8 -/

/-- Claim C8 is false as stated: with a window smaller than 2 the detector
does not run to completion flagging nothing; the rolling computation is
rejected because `min_periods=2` exceeds the window, so the call fails. -/
theorem claim_C8_counterexample :
    setRedundantFlag 1 [wRecA, wRecB] =
      Except.error "ValueError: min_periods 2 must be smaller or equal window" := rfl

/-- Claim C8 amended: a window smaller than 2 does not merely disable the
check; the rolling computation fails with a `ValueError` (`min_periods=2`
exceeds the window), so classification aborts and in particular no record
is ever flagged REDUNDANT by such a call. -/
theorem claim_C8_degenerate_window_amended (W : Nat) (df : List Record) (hW : W < 2) :
    setRedundantFlag W df =
      Except.error "ValueError: min_periods 2 must be smaller or equal window" := by
  unfold setRedundantFlag
  rw [if_pos hW]

theorem claim_C8_degenerate_window_amended_witness :
    setRedundantFlag 0 [wRecA] =
      Except.error "ValueError: min_periods 2 must be smaller or equal window" :=
  claim_C8_degenerate_window_amended 0 [wRecA] (by decide)

/-! ### Claim C5 -/

lemma calcOverlapGo_fetched (acq : String → List Int) (openEnd : Bool)
    (ok : List Record) :
    ∀ (l : List Record) (pos : Nat),
      (calcOverlapGo acq openEnd ok pos l).2 =
        (l.filter (fun r => decide (r.global_quality_flag = QualityFlags.OK))).map
          (fun r => r.filename) := by
  intro l
  induction l with
  | nil => intro pos; simp [calcOverlapGo]
  | cons x xs ih =>
    intro pos
    by_cases hx : x.global_quality_flag = QualityFlags.OK
    · simp [calcOverlapGo, hx, List.filter_cons, ih]
    · simp [calcOverlapGo, hx, List.filter_cons, ih]

/-- Concrete frame for the C5 counterexample: two OK records that do not
overlap in time. -/
def cRec0 : Record :=
  { platform := "P", start_time := 0, end_time := 600, along_track := 100,
    filename := "c0" }

def cRec1 : Record :=
  { platform := "P", start_time := 1200, end_time := 1800, along_track := 100,
    filename := "c1" }

def cAcq : String → List Int := fun _ => [0]

/-- Claim C5 is false as stated: both records are OK and neither overlaps
the other (the predecessor ends before the successor starts), yet the
per-scanline timestamp provider is consulted for both files: the dataset is
opened unconditionally inside the loop of `_calc_overlap`. -/
theorem claim_C5_counterexample :
    cRec0.global_quality_flag = QualityFlags.OK ∧
    cRec1.global_quality_flag = QualityFlags.OK ∧
    cRec0.end_time < cRec1.start_time ∧
    (calcOverlap cAcq false [cRec0, cRec1]).2 = ["c0", "c1"] :=
  ⟨rfl, rfl, by decide, by decide⟩

/-- Claim C5 amended: the per-scanline timestamp provider is consulted for
every OK record of the frame, whether or not the record overlaps a
neighbour; non-OK records are never fetched. -/
theorem claim_C5_fetch_amended (acq : String → List Int) (openEnd : Bool)
    (df : List Record) :
    (calcOverlap acq openEnd df).2 =
      (df.filter (fun r => decide (r.global_quality_flag = QualityFlags.OK))).map
        (fun r => r.filename) :=
  calcOverlapGo_fetched acq openEnd
    (df.filter (fun r => decide (r.global_quality_flag = QualityFlags.OK))) df 0

/-! ### Claim C2 -/

/-- The grouping key of the duplicate rule. -/
def recKey (r : Record) : String × Int × Int := (r.platform, r.start_time, r.end_time)

lemma duplicatePred_eq_key (l : List Record) (r : Record) :
    duplicatePred l r = (l.map recKey).any (fun q => decide (q = recKey r)) := by
  unfold duplicatePred
  induction l with
  | nil => rfl
  | cons x xs ih =>
    rw [List.map_cons, List.any_cons, List.any_cons, ih]
    congr 1
    simp [recKey, Bool.decide_and, Bool.and_assoc]

lemma duplicatePred_congr {l₁ l₂ : List Record} {r₁ r₂ : Record}
    (hl : l₁.map recKey = l₂.map recKey) (hr : recKey r₁ = recKey r₂) :
    duplicatePred l₁ r₁ = duplicatePred l₂ r₂ := by
  rw [duplicatePred_eq_key, duplicatePred_eq_key, hl, hr]

lemma recKey_ite (g : Record → Bool) (f : QualityFlags) (r : Record) :
    recKey (if g r then { r with global_quality_flag := f } else r) = recKey r := by
  by_cases h : g r = true
  · simp [h, recKey]
  · simp [h]

lemma map_recKey_flagRule (g : Record → Bool) (f : QualityFlags) (l : List Record) :
    (l.map (fun r =>
      if g r then { r with global_quality_flag := f } else r)).map recKey
      = l.map recKey := by
  rw [List.map_map]
  apply List.map_congr_left
  intro r _
  exact recKey_ite g f r

lemma map_recKey_setRedundantFlagGo (W : Nat) (ps : List (Int × Int)) :
    ∀ (l : List Record) (pos : Nat),
      (setRedundantFlagGo W ps pos l).map recKey = l.map recKey := by
  intro l
  induction l with
  | nil => intro pos; rfl
  | cons x xs ih =>
    intro pos
    by_cases hx : x.global_quality_flag = QualityFlags.OK
    · by_cases hr : rollingIsRedundant W ps pos = true
      · simp [setRedundantFlagGo, hx, hr, ih, recKey]
      · simp [setRedundantFlagGo, hx, hr, ih]
    · simp [setRedundantFlagGo, hx, ih]

lemma setDuplicateFlagGo_getElem :
    ∀ (l seen : List Record) (k : Nat),
      (setDuplicateFlagGo seen l)[k]? =
        (l[k]?).map (fun r =>
          if duplicatePred (seen ++ l.take k) r then
            { r with global_quality_flag := QualityFlags.DUPLICATE }
          else r) := by
  intro l
  induction l with
  | nil => intro seen k; simp [setDuplicateFlagGo]
  | cons x xs ih =>
    intro seen k
    cases k with
    | zero =>
      simp [setDuplicateFlagGo]
    | succ k =>
      simp only [setDuplicateFlagGo, List.getElem?_cons_succ, List.take_succ_cons]
      rw [ih (seen ++ [x]) k]
      have hL : (seen ++ [x]) ++ xs.take k = seen ++ x :: xs.take k := by simp
      simp only [hL]

lemma setRedundantFlag_twenty (df : List Record) :
    setRedundantFlag 20 df = Except.ok (setRedundantFlagCore 20 df) := rfl

/-- Claim C2: a record matching both the too-long and the duplicate
predicate ends classification as DUPLICATE (the duplicate rule runs last,
unfiltered, and overwrites), and a record matching the too-short predicate
is never flagged REDUNDANT (it is excluded from the OK pool of rule 4). -/
theorem claim_C2_rule_precedence (cfg : Config) (cov : List (String × Int × Option Int))
    (p : String) (df out : List Record) (k : Nat) (r : Record)
    (hout : setGlobalQualFlags cfg cov p df = Except.ok out)
    (hk : df[k]? = some r) :
    (tooLongPred defaultMaxLength r = true →
      duplicatePred (df.take k) r = true →
      ∃ q, out[k]? = some q ∧ q.global_quality_flag = QualityFlags.DUPLICATE) ∧
    (tooShortPred cfg r = true →
      ∀ q, out[k]? = some q → q.global_quality_flag ≠ QualityFlags.REDUNDANT) := by
  cases hinv : setInvalidTimestampFlag cov p df with
  | error e =>
    simp only [setGlobalQualFlags, hinv] at hout
    exact absurd hout (by simp)
  | ok df1 =>
    simp only [setGlobalQualFlags, hinv, setRedundantFlag_twenty] at hout
    injection hout with hout
    -- shape of df1
    cases hl : cov.lookup p with
    | none =>
      simp only [setInvalidTimestampFlag, hl] at hinv
      exact absurd hinv (by simp)
    | some v =>
      obtain ⟨vmin, vmaxO⟩ := v
      simp only [setInvalidTimestampFlag, hl] at hinv
      injection hinv with hinv
      -- the record after rules 1-3
      have hk1 : df1[k]? = some (if invalidPred vmin (vmaxO.getD sentinel2030) r then
          { r with global_quality_flag := QualityFlags.INVALID_TIMESTAMP } else r) := by
        rw [← hinv, List.getElem?_map, hk]; rfl
      set r1 := if invalidPred vmin (vmaxO.getD sentinel2030) r then
          { r with global_quality_flag := QualityFlags.INVALID_TIMESTAMP } else r with hr1
      have hk2 : (setTooShortFlag cfg df1)[k]? =
          some (if tooShortPred cfg r1 then
            { r1 with global_quality_flag := QualityFlags.TOO_SHORT } else r1) := by
        rw [setTooShortFlag, List.getElem?_map, hk1]; rfl
      set r2 := if tooShortPred cfg r1 then
          { r1 with global_quality_flag := QualityFlags.TOO_SHORT } else r1 with hr2
      have hk3 : (setTooLongFlag defaultMaxLength (setTooShortFlag cfg df1))[k]? =
          some (if tooLongPred defaultMaxLength r2 then
            { r2 with global_quality_flag := QualityFlags.TOO_LONG } else r2) := by
        rw [setTooLongFlag, List.getElem?_map, hk2]; rfl
      set df3 := setTooLongFlag defaultMaxLength (setTooShortFlag cfg df1) with hdf3
      set r3 := if tooLongPred defaultMaxLength r2 then
          { r2 with global_quality_flag := QualityFlags.TOO_LONG } else r2 with hr3
      have hk4 : (setRedundantFlagCore 20 df3)[k]? =
          some (if r3.global_quality_flag = QualityFlags.OK then
            (if rollingIsRedundant 20 (okPairs df3) (0 + okCount (df3.take k)) then
              { r3 with global_quality_flag := QualityFlags.REDUNDANT } else r3)
          else r3) := by
        rw [setRedundantFlagCore, setRedundantFlagGo_getElem, hk3]; rfl
      set r4 := if r3.global_quality_flag = QualityFlags.OK then
          (if rollingIsRedundant 20 (okPairs df3) (0 + okCount (df3.take k)) then
            { r3 with global_quality_flag := QualityFlags.REDUNDANT } else r3)
        else r3 with hr4
      set df4 := setRedundantFlagCore 20 df3 with hdf4
      have hk5 : out[k]? = some (if duplicatePred ([] ++ df4.take k) r4 then
          { r4 with global_quality_flag := QualityFlags.DUPLICATE } else r4) := by
        rw [← hout, setDuplicateFlag, setDuplicateFlagGo_getElem, hk4]; rfl
      -- keys are preserved through rules 1-4
      have hkey1 : recKey r1 = recKey r := recKey_ite _ _ r
      have hkey2 : recKey r2 = recKey r := by
        rw [hr2]
        rw [show recKey (if tooShortPred cfg r1 then
          { r1 with global_quality_flag := QualityFlags.TOO_SHORT } else r1) = recKey r1 from
          recKey_ite (tooShortPred cfg) QualityFlags.TOO_SHORT r1, hkey1]
      have hkey3 : recKey r3 = recKey r := by
        rw [hr3]
        rw [show recKey (if tooLongPred defaultMaxLength r2 then
          { r2 with global_quality_flag := QualityFlags.TOO_LONG } else r2) = recKey r2 from
          recKey_ite (tooLongPred defaultMaxLength) QualityFlags.TOO_LONG r2, hkey2]
      have hkey4 : recKey r4 = recKey r := by
        rw [hr4]
        by_cases h3 : r3.global_quality_flag = QualityFlags.OK
        · by_cases hred : rollingIsRedundant 20 (okPairs df3) (0 + okCount (df3.take k)) = true
          · simp only [h3, if_true, hred, if_pos]
            rw [show recKey { r3 with global_quality_flag := QualityFlags.REDUNDANT } =
              recKey r3 from rfl, hkey3]
          · simp only [h3, if_true, hred]
            simp only [Bool.false_eq_true, if_false, if_pos]
            exact hkey3
        · rw [if_neg h3]
          exact hkey3
      have hmaps : df4.map recKey = df.map recKey := by
        rw [hdf4, setRedundantFlagCore, map_recKey_setRedundantFlagGo, hdf3,
          setTooLongFlag, map_recKey_flagRule, setTooShortFlag, map_recKey_flagRule,
          ← hinv, map_recKey_flagRule]
      have htake : (df4.take k).map recKey = (df.take k).map recKey := by
        rw [List.map_take, List.map_take, hmaps]
      constructor
      · intro _ hdup
        refine ⟨{ r4 with global_quality_flag := QualityFlags.DUPLICATE }, ?_, rfl⟩
        rw [hk5]
        have : duplicatePred ([] ++ df4.take k) r4 = true := by
          rw [List.nil_append, duplicatePred_congr htake hkey4]
          exact hdup
        rw [this]
        simp
      · intro hshort q hq hflag
        -- with the too-short predicate true the record leaves rules 1-3 non-OK
        have hts1 : tooShortPred cfg r1 = true := by
          rw [hr1]
          by_cases hi : invalidPred vmin (vmaxO.getD sentinel2030) r = true
          · rw [if_pos hi]; exact hshort
          · rw [if_neg hi]; exact hshort
        have hflag2 : r2.global_quality_flag = QualityFlags.TOO_SHORT := by
          rw [hr2, if_pos hts1]
        have hflag3 : r3.global_quality_flag = QualityFlags.TOO_SHORT ∨
            r3.global_quality_flag = QualityFlags.TOO_LONG := by
          rw [hr3]
          by_cases ht : tooLongPred defaultMaxLength r2 = true
          · right; rw [if_pos ht]
          · left; rw [if_neg ht]; exact hflag2
        have hnotok : ¬ r3.global_quality_flag = QualityFlags.OK := by
          rcases hflag3 with h | h <;> rw [h] <;> simp
        have hr4eq : r4 = r3 := by rw [hr4, if_neg hnotok]
        rw [hk5] at hq
        injection hq with hq
        by_cases hd : duplicatePred ([] ++ df4.take k) r4 = true
        · rw [if_pos hd] at hq
          rw [← hq] at hflag
          exact absurd hflag (by simp)
        · rw [if_neg hd] at hq
          rw [← hq, hr4eq] at hflag
          rcases hflag3 with h | h <;> rw [h] at hflag <;> exact absurd hflag (by simp)

/-- Concrete frame for the C2 witness: two identical too-long records. -/
def wT0 : Int := dtNs 2005 1 1 0 0

def dRecL : Record :=
  { platform := "NOAA-15", start_time := wT0,
    end_time := wT0 + 200 * 60 * 1000000000, along_track := 100,
    filename := "dl0" }

def dRecL2 : Record :=
  { platform := "NOAA-15", start_time := wT0,
    end_time := wT0 + 200 * 60 * 1000000000, along_track := 100,
    filename := "dl1" }

def wOut2 : List Record :=
  [{ dRecL with global_quality_flag := QualityFlags.TOO_LONG },
   { dRecL2 with global_quality_flag := QualityFlags.DUPLICATE }]

theorem claim_C2_rule_precedence_witness :
    ∃ q, wOut2[1]? = some q ∧ q.global_quality_flag = QualityFlags.DUPLICATE :=
  (claim_C2_rule_precedence defaultConfig TIME_COVERAGE "NOAA-15" [dRecL, dRecL2]
      wOut2 1 dRecL2 rfl rfl).1 (by decide) (by decide)

/-! ### Claims C3 and C10: the overlap bound formulas -/

lemma map_any_self {α : Type} (p : α → Bool) :
    ∀ l : List α, (l.map p).any (fun b => b) = l.any p := by
  intro l
  induction l with
  | nil => rfl
  | cons x xs ih => simp [ih]

lemma map_findIdx_self {α : Type} (p : α → Bool) :
    ∀ l : List α, (l.map p).findIdx (fun b => b) = l.findIdx p := by
  intro l
  induction l with
  | nil => rfl
  | cons x xs ih => simp [List.findIdx_cons, ih]

lemma argmaxBool_map_pos {α : Type} (p : α → Bool) (l : List α)
    (h : l.any p = true) : argmaxBool (l.map p) = l.findIdx p := by
  unfold argmaxBool
  rw [map_any_self, map_findIdx_self, if_pos h]

lemma argmaxBool_map_neg {α : Type} (p : α → Bool) (l : List α)
    (h : l.any p = false) : argmaxBool (l.map p) = 0 := by
  unfold argmaxBool
  rw [map_any_self, h]
  simp

/-- Claim C3: the four overlap bound formulas of the resolver, under the
precondition that a qualifying scanline exists for each first-match
search. -/
theorem claim_C3_overlap_bounds (acq : String → List Int) (ok : List Record)
    (i : Nat) (row : Record) (hrow : ok[i]? = some row) :
    (i = 0 → (overlapBounds acq false ok i).1 = some 0) ∧
    (∀ prev, 0 < i → ok[i - 1]? = some prev →
      (prev.end_time ≥ row.start_time →
        (acq row.filename).any (fun x => decide (prev.end_time < x)) = true →
        (overlapBounds acq false ok i).1 =
          some (((acq row.filename).findIdx (fun x => decide (prev.end_time < x)) : Nat) : Int)) ∧
      (¬ prev.end_time ≥ row.start_time →
        (overlapBounds acq false ok i).1 = some 0)) ∧
    (ok[i + 1]? = none →
      (overlapBounds acq false ok i).2 = some ((row.along_track : Int) - 1)) ∧
    (∀ next, ok[i + 1]? = some next →
      (row.end_time ≥ next.start_time →
        (acq row.filename).any (fun x => decide (next.start_time ≤ x)) = true →
        (overlapBounds acq false ok i).2 =
          some ((((acq row.filename).findIdx (fun x => decide (next.start_time ≤ x)) : Nat) : Int) - 1)) ∧
      (¬ row.end_time ≥ next.start_time →
        (overlapBounds acq false ok i).2 = some ((row.along_track : Int) - 1))) := by
  refine ⟨?_, ?_, ?_, ?_⟩
  · intro h0
    subst h0
    simp [overlapBounds, hrow]
  · intro prev hpos hprev
    constructor
    · intro hge hany
      simp only [overlapBounds, hrow, if_pos hpos, hprev, if_pos hge]
      rw [firstIdxGt, argmaxBool_map_pos _ _ hany]
    · intro hlt
      simp only [overlapBounds, hrow, if_pos hpos, hprev, if_neg hlt]
  · intro hnone
    simp only [overlapBounds, hrow, hnone]
    simp
  · intro next hnext
    constructor
    · intro hge hany
      simp only [overlapBounds, hrow, hnext, if_pos hge]
      rw [firstIdxGe, argmaxBool_map_pos _ _ hany]
    · intro hlt
      simp only [overlapBounds, hrow, hnext, if_neg hlt]

/-- Claim C10: when the record overlaps a neighbour but no scanline
qualifies, `argmax` over the all-false mask yields 0, so the start bound
falls back to 0 and the end bound to -1. -/
theorem claim_C10_argmax_fallback (acq : String → List Int) (ok : List Record)
    (i : Nat) (row : Record) (hrow : ok[i]? = some row) :
    (∀ prev, 0 < i → ok[i - 1]? = some prev →
      prev.end_time ≥ row.start_time →
      (acq row.filename).any (fun x => decide (prev.end_time < x)) = false →
      (overlapBounds acq false ok i).1 = some 0) ∧
    (∀ next, ok[i + 1]? = some next →
      row.end_time ≥ next.start_time →
      (acq row.filename).any (fun x => decide (next.start_time ≤ x)) = false →
      (overlapBounds acq false ok i).2 = some (-1)) := by
  constructor
  · intro prev hpos hprev hge hnone
    simp only [overlapBounds, hrow, if_pos hpos, hprev, if_pos hge]
    rw [firstIdxGt, argmaxBool_map_neg _ _ hnone]
    rfl
  · intro next hnext hge hnone
    simp only [overlapBounds, hrow, hnext, if_pos hge]
    rw [firstIdxGe, argmaxBool_map_neg _ _ hnone]
    rfl

/-- Concrete OK-filtered frame for the C3 and C10 witnesses. -/
def vRec0 : Record :=
  { platform := "P", start_time := 0, end_time := 600, along_track := 4,
    filename := "v0" }

def vRec1 : Record :=
  { platform := "P", start_time := 300, end_time := 900, along_track := 4,
    filename := "v1" }

def vAcq : String → List Int := fun _ => [300, 500, 700, 800]

theorem claim_C3_overlap_bounds_witness :
    (overlapBounds vAcq false [vRec0, vRec1] 1).1 = some 2 ∧
    (overlapBounds vAcq false [vRec0, vRec1] 1).2 = some ((vRec1.along_track : Int) - 1) := by
  have h := claim_C3_overlap_bounds vAcq [vRec0, vRec1] 1 vRec1 (by decide)
  constructor
  · have h2 := (h.2.1 vRec0 (by decide) (by decide)).1 (by decide) (by decide)
    rw [h2]
    decide
  · exact h.2.2.1 (by decide)

def vAcqLow : String → List Int := fun _ => [5, 6]

def vRec2 : Record :=
  { platform := "P", start_time := 550, end_time := 1000, along_track := 2,
    filename := "v2" }

theorem claim_C10_argmax_fallback_witness :
    (overlapBounds vAcqLow false [vRec0, vRec1, vRec2] 1).1 = some 0 ∧
    (overlapBounds vAcqLow false [vRec0, vRec1, vRec2] 1).2 = some (-1) := by
  have h := claim_C10_argmax_fallback vAcqLow [vRec0, vRec1, vRec2] 1 vRec1 (by decide)
  exact ⟨h.1 vRec0 (by decide) (by decide) (by decide) (by decide),
         h.2 vRec2 (by decide) (by decide) (by decide)⟩

/-! ### Claim C6 -/

lemma uniquePlatforms_mem {s : String} : ∀ {l : List String}, s ∈ l → s ∈ uniquePlatforms l := by
  intro l
  induction l with
  | nil => intro h; cases h
  | cons x xs ih =>
    intro h
    unfold uniquePlatforms
    rcases List.mem_cons.mp h with h | h
    · exact h ▸ List.mem_cons_self x _
    · by_cases hx : s = x
      · subst hx; exact List.mem_cons_self s _
      · apply List.mem_cons_of_mem
        rw [List.mem_filter]
        exact ⟨ih h, by simp [hx]⟩

lemma platformResult_missing (cfg : Config) (cov : List (String × Int × Option Int))
    (acq : String → List Int) (records : List Record) (p : String)
    (hmiss : cov.lookup p = none) :
    platformResult cfg cov acq p records = Except.error ("KeyError: " ++ p) := by
  simp only [platformResult, setGlobalQualFlags, setInvalidTimestampFlag, hmiss]

lemma groupResults_error_of_mem {cfg : Config} {cov : List (String × Int × Option Int)}
    {acq : String → List Int} {records : List Record} :
    ∀ {ps : List String} {p : String}, p ∈ ps → cov.lookup p = none →
      ∃ e, groupResults cfg cov acq records ps = Except.error e := by
  intro ps
  induction ps with
  | nil => intro p h; cases h
  | cons x rest ih =>
    intro p hp hmiss
    rcases List.mem_cons.mp hp with h | h
    · subst h
      refine ⟨"KeyError: " ++ p, ?_⟩
      unfold groupResults
      rw [platformResult_missing cfg cov acq records p hmiss]
    · cases hx : platformResult cfg cov acq x records with
      | error e =>
        refine ⟨e, ?_⟩
        unfold groupResults
        rw [hx]
      | ok g =>
        obtain ⟨e, he⟩ := ih h hmiss
        refine ⟨e, ?_⟩
        unfold groupResults
        rw [hx, he]

/-- Claim C6 amended: a platform missing from the coverage table does not
fail just that record: the `KeyError` aborts the whole call, and no record
of any platform receives a result. -/
theorem claim_C6_missing_platform_amended (cfg : Config)
    (cov : List (String × Int × Option Int)) (acq : String → List Int)
    (records : List Record) (r : Record)
    (hr : r ∈ records) (hmiss : cov.lookup r.platform = none) :
    ∃ e, get_metadata cfg cov acq records = Except.error e := by
  unfold get_metadata
  apply groupResults_error_of_mem _ hmiss
  apply uniquePlatforms_mem
  rw [List.mem_map]
  exact ⟨r, (List.perm_insertionSort timeKeyLe records).mem_iff.mpr hr, rfl⟩

/-- Concrete input for C6: one valid NOAA-15 record and one record of an
unknown platform. -/
def uRecOk : Record :=
  { platform := "NOAA-15", start_time := wT0,
    end_time := wT0 + 10 * 60 * 1000000000, along_track := 100,
    filename := "u0" }

def uRecBad : Record :=
  { platform := "SENTINEL", start_time := wT0,
    end_time := wT0 + 10 * 60 * 1000000000, along_track := 100,
    filename := "u1" }

/-- Claim C6 is false as stated: with one record of an unknown platform the
whole batch aborts with a `KeyError`; the valid NOAA-15 record receives no
result either. -/
theorem claim_C6_counterexample :
    get_metadata defaultConfig TIME_COVERAGE cAcq [uRecOk, uRecBad] =
      Except.error "KeyError: SENTINEL" := rfl

theorem claim_C6_missing_platform_amended_witness :
    ∃ e, get_metadata defaultConfig TIME_COVERAGE cAcq [uRecOk, uRecBad] =
      Except.error e :=
  claim_C6_missing_platform_amended defaultConfig TIME_COVERAGE cAcq
    [uRecOk, uRecBad] uRecBad (by decide) (by decide)

/-! ### Claim C7 -/

/-- Distinct `(start_time, end_time)` sort keys. -/
def keyNe (a b : Record) : Prop :=
  ¬ (a.start_time = b.start_time ∧ a.end_time = b.end_time)

instance : DecidableRel keyNe := fun a b => by
  unfold keyNe; exact inferInstance

lemma keyNe_symm : ∀ {a b : Record}, keyNe a b → keyNe b a :=
  fun h hc => h ⟨hc.1.symm, hc.2.symm⟩

/-- Two sorted permutations of the same records with pairwise distinct sort
keys are equal. -/
lemma eq_of_perm_sorted_keyNe :
    ∀ {l₁ l₂ : List Record}, l₁.Perm l₂ →
      l₁.Sorted timeKeyLe → l₂.Sorted timeKeyLe → l₁.Pairwise keyNe → l₁ = l₂ := by
  intro l₁
  induction l₁ with
  | nil =>
    intro l₂ hp _ _ _
    exact hp.nil_eq
  | cons a t ih =>
    intro l₂ hp hs₁ hs₂ hne
    cases l₂ with
    | nil => exact absurd hp.eq_nil (by simp)
    | cons b t₂ =>
      have hab : a = b := by
        have hbmem : b ∈ a :: t := hp.mem_iff.mpr (List.mem_cons_self b t₂)
        rcases List.mem_cons.mp hbmem with h | h
        · exact h.symm
        · have hamem : a ∈ b :: t₂ := hp.mem_iff.mp (List.mem_cons_self a t)
          rcases List.mem_cons.mp hamem with h2 | h2
          · exact h2
          · exfalso
            have hle1 : timeKeyLe a b := List.rel_of_sorted_cons hs₁ b h
            have hle2 : timeKeyLe b a := List.rel_of_sorted_cons hs₂ a h2
            have hk : keyNe a b := (List.pairwise_cons.mp hne).1 b h
            unfold timeKeyLe at hle1 hle2
            unfold keyNe at hk
            omega
      subst hab
      exact congrArg (List.cons a)
        (ih hp.cons_inv hs₁.of_cons hs₂.of_cons (List.pairwise_cons.mp hne).2)

/-- Sorting either permutation and filtering one platform gives the same
group when the records of that platform have pairwise distinct keys. -/
lemma platformGroup_eq (p : String) {l₁ l₂ : List Record}
    (hperm : l₁.Perm l₂)
    (hkeys : (l₁.filter (fun r => decide (r.platform = p))).Pairwise keyNe) :
    (sortByTime l₁).filter (fun r => decide (r.platform = p)) =
      (sortByTime l₂).filter (fun r => decide (r.platform = p)) := by
  apply eq_of_perm_sorted_keyNe
  · exact ((List.perm_insertionSort timeKeyLe l₁).filter _).trans
      ((hperm.filter _).trans ((List.perm_insertionSort timeKeyLe l₂).symm.filter _))
  · exact List.Pairwise.filter _ (List.sorted_insertionSort timeKeyLe l₁)
  · exact List.Pairwise.filter _ (List.sorted_insertionSort timeKeyLe l₂)
  · exact (List.Perm.pairwise_iff keyNe_symm
      (((List.perm_insertionSort timeKeyLe l₁).filter _).symm)).mp hkeys

/-- Claim C7 amended: reordering the input records yields the same final
per-record outcome, provided no two records of one platform share the same
`(start_time, end_time)` key; with shared keys the DUPLICATE flag lands on
whichever record sorts second, which depends on the input order. -/
theorem claim_C7_order_invariance_amended (cfg : Config)
    (cov : List (String × Int × Option Int)) (acq : String → List Int)
    (l₁ l₂ : List Record) (hperm : l₁.Perm l₂)
    (hkeys : ∀ p : String, (l₁.filter (fun r => decide (r.platform = p))).Pairwise keyNe) :
    ∀ p, platformResult cfg cov acq p l₁ = platformResult cfg cov acq p l₂ := by
  intro p
  unfold platformResult
  rw [platformGroup_eq p hperm (hkeys p)]

/-- The final outcome of the record with the given filename. -/
def outcomeFor (res : Except String (List Record)) (f : String) : Option Record :=
  match res with
  | Except.error _ => none
  | Except.ok l => l.find? (fun r => decide (r.filename = f))

/-- Two records sharing platform and `(start_time, end_time)`. -/
def eRecA : Record :=
  { platform := "NOAA-15", start_time := wT0,
    end_time := wT0 + 10 * 60 * 1000000000, along_track := 100,
    filename := "ea" }

def eRecB : Record :=
  { platform := "NOAA-15", start_time := wT0,
    end_time := wT0 + 10 * 60 * 1000000000, along_track := 100,
    filename := "eb" }

/-- Claim C7 is false as stated: permuting two records of one platform that
share the sort key changes which of them is flagged DUPLICATE, so the
per-record outcome of file "ea" differs between the two runs. -/
theorem claim_C7_counterexample :
    outcomeFor (get_metadata defaultConfig TIME_COVERAGE cAcq [eRecA, eRecB]) "ea" ≠
      outcomeFor (get_metadata defaultConfig TIME_COVERAGE cAcq [eRecB, eRecA]) "ea" := by
  decide

/-- Second NOAA-15 record with a distinct key, for the C7 witness. -/
def uRecOk2 : Record :=
  { platform := "NOAA-15", start_time := wT0 + 20 * 60 * 1000000000,
    end_time := wT0 + 30 * 60 * 1000000000, along_track := 100,
    filename := "u2" }

theorem claim_C7_order_invariance_amended_witness :
    platformResult defaultConfig TIME_COVERAGE cAcq "NOAA-15" [uRecOk, uRecOk2] =
      platformResult defaultConfig TIME_COVERAGE cAcq "NOAA-15" [uRecOk2, uRecOk] :=
  claim_C7_order_invariance_amended defaultConfig TIME_COVERAGE cAcq
    [uRecOk, uRecOk2] [uRecOk2, uRecOk] (by decide)
    (fun p => List.Pairwise.sublist (List.filter_sublist _) (by decide)) "NOAA-15"

/-! ### Claim C9 -/

lemma mem_map_flagRule_bounds {g : Record → Bool} {f : QualityFlags}
    {l : List Record} {q : Record}
    (hq : q ∈ l.map (fun r => if g r then { r with global_quality_flag := f } else r)) :
    ∃ r ∈ l, q.overlap_free_start = r.overlap_free_start ∧
      q.overlap_free_end = r.overlap_free_end := by
  rcases List.mem_map.mp hq with ⟨r, hr, hqr⟩
  refine ⟨r, hr, ?_⟩
  by_cases h : g r = true
  · rw [← hqr, if_pos h]; exact ⟨rfl, rfl⟩
  · rw [← hqr, if_neg h]; exact ⟨rfl, rfl⟩

lemma mem_setRedundantFlagGo_bounds {W : Nat} {ps : List (Int × Int)} :
    ∀ {l : List Record} {pos : Nat} {q : Record},
      q ∈ setRedundantFlagGo W ps pos l →
      ∃ r ∈ l, q.overlap_free_start = r.overlap_free_start ∧
        q.overlap_free_end = r.overlap_free_end := by
  intro l
  induction l with
  | nil => intro pos q hq; simp [setRedundantFlagGo] at hq
  | cons x xs ih =>
    intro pos q hq
    by_cases hx : x.global_quality_flag = QualityFlags.OK
    · simp only [setRedundantFlagGo, if_pos hx] at hq
      rcases List.mem_cons.mp hq with h | h
      · refine ⟨x, List.mem_cons_self x xs, ?_⟩
        rw [h]
        by_cases hr : rollingIsRedundant W ps pos = true
        · rw [if_pos hr]; exact ⟨rfl, rfl⟩
        · rw [if_neg hr]; exact ⟨rfl, rfl⟩
      · obtain ⟨r, hrm, hb⟩ := ih h
        exact ⟨r, List.mem_cons_of_mem x hrm, hb⟩
    · simp only [setRedundantFlagGo, if_neg hx] at hq
      rcases List.mem_cons.mp hq with h | h
      · exact ⟨x, List.mem_cons_self x xs, by rw [h]; exact ⟨rfl, rfl⟩⟩
      · obtain ⟨r, hrm, hb⟩ := ih h
        exact ⟨r, List.mem_cons_of_mem x hrm, hb⟩

lemma mem_setDuplicateFlagGo_bounds :
    ∀ {l seen : List Record} {q : Record},
      q ∈ setDuplicateFlagGo seen l →
      ∃ r ∈ l, q.overlap_free_start = r.overlap_free_start ∧
        q.overlap_free_end = r.overlap_free_end := by
  intro l
  induction l with
  | nil => intro seen q hq; simp [setDuplicateFlagGo] at hq
  | cons x xs ih =>
    intro seen q hq
    simp only [setDuplicateFlagGo] at hq
    rcases List.mem_cons.mp hq with h | h
    · refine ⟨x, List.mem_cons_self x xs, ?_⟩
      rw [h]
      by_cases hd : duplicatePred seen x = true
      · rw [if_pos hd]; exact ⟨rfl, rfl⟩
      · rw [if_neg hd]; exact ⟨rfl, rfl⟩
    · obtain ⟨r, hrm, hb⟩ := ih h
      exact ⟨r, List.mem_cons_of_mem x hrm, hb⟩

lemma mem_calcOverlapGo_notOK {acq : String → List Int} {openEnd : Bool}
    {ok : List Record} :
    ∀ {l : List Record} {pos : Nat} {q : Record},
      q ∈ (calcOverlapGo acq openEnd ok pos l).1 →
      ¬ q.global_quality_flag = QualityFlags.OK → q ∈ l := by
  intro l
  induction l with
  | nil => intro pos q hq _; simp [calcOverlapGo] at hq
  | cons x xs ih =>
    intro pos q hq hflag
    by_cases hx : x.global_quality_flag = QualityFlags.OK
    · simp only [calcOverlapGo, if_pos hx] at hq
      rcases List.mem_cons.mp hq with h | h
      · exfalso
        apply hflag
        rw [h]
        exact hx
      · exact List.mem_cons_of_mem x (ih h hflag)
    · simp only [calcOverlapGo, if_neg hx] at hq
      rcases List.mem_cons.mp hq with h | h
      · rw [h]; exact List.mem_cons_self x xs
      · exact List.mem_cons_of_mem x (ih h hflag)

lemma groupResults_ok_mem {cfg : Config} {cov : List (String × Int × Option Int)}
    {acq : String → List Int} {records : List Record} :
    ∀ {ps : List String} {out : List Record},
      groupResults cfg cov acq records ps = Except.ok out →
      ∀ q ∈ out, ∃ p g, platformResult cfg cov acq p records = Except.ok g ∧ q ∈ g := by
  intro ps
  induction ps with
  | nil =>
    intro out h q hq
    unfold groupResults at h
    injection h with h
    rw [← h] at hq
    cases hq
  | cons x rest ih =>
    intro out h q hq
    cases hx : platformResult cfg cov acq x records with
    | error e =>
      simp only [groupResults, hx] at h
      exact absurd h (by simp)
    | ok g =>
      simp only [groupResults, hx] at h
      cases hrest : groupResults cfg cov acq records rest with
      | error e =>
        rw [hrest] at h
        exact absurd h (by simp)
      | ok gs =>
        rw [hrest] at h
        injection h with h
        rw [← h] at hq
        rcases List.mem_append.mp hq with hm | hm
        · exact ⟨x, g, hx, hm⟩
        · exact ih hrest q hm

/-- Claim C9: overlap bounds are only ever written for records that are OK
after classification; every non-OK record of the output keeps undefined
bounds, provided the input records start with undefined bounds. -/
theorem claim_C9_bounds_only_ok (cfg : Config) (cov : List (String × Int × Option Int))
    (acq : String → List Int) (records out : List Record)
    (hout : get_metadata cfg cov acq records = Except.ok out)
    (hinit : ∀ r ∈ records, r.overlap_free_start = none ∧ r.overlap_free_end = none) :
    ∀ q ∈ out, ¬ q.global_quality_flag = QualityFlags.OK →
      q.overlap_free_start = none ∧ q.overlap_free_end = none := by
  intro q hq hflag
  unfold get_metadata at hout
  obtain ⟨p, g, hpr, hqg⟩ := groupResults_ok_mem hout q hq
  cases hgf : setGlobalQualFlags cfg cov p
      ((sortByTime records).filter (fun r => decide (r.platform = p))) with
  | error e =>
    simp only [platformResult, hgf] at hpr
    exact absurd hpr (by simp)
  | ok flagged =>
    simp only [platformResult, hgf] at hpr
    injection hpr with hpr
    rw [← hpr] at hqg
    unfold calcOverlap at hqg
    have hqf : q ∈ flagged := mem_calcOverlapGo_notOK hqg hflag
    cases hinv : setInvalidTimestampFlag cov p
        ((sortByTime records).filter (fun r => decide (r.platform = p))) with
    | error e =>
      simp only [setGlobalQualFlags, hinv] at hgf
      exact absurd hgf (by simp)
    | ok df1 =>
      simp only [setGlobalQualFlags, hinv, setRedundantFlag_twenty] at hgf
      injection hgf with hgf
      rw [← hgf] at hqf
      unfold setDuplicateFlag at hqf
      obtain ⟨r4, hr4, hb4⟩ := mem_setDuplicateFlagGo_bounds hqf
      unfold setRedundantFlagCore at hr4
      obtain ⟨r3, hr3, hb3⟩ := mem_setRedundantFlagGo_bounds hr4
      unfold setTooLongFlag at hr3
      obtain ⟨r2, hr2, hb2⟩ := mem_map_flagRule_bounds hr3
      unfold setTooShortFlag at hr2
      obtain ⟨r1, hr1, hb1⟩ := mem_map_flagRule_bounds hr2
      cases hl : cov.lookup p with
      | none =>
        simp only [setInvalidTimestampFlag, hl] at hinv
        exact absurd hinv (by simp)
      | some v =>
        obtain ⟨vmin, vmaxO⟩ := v
        simp only [setInvalidTimestampFlag, hl] at hinv
        injection hinv with hinv
        rw [← hinv] at hr1
        obtain ⟨r0, hr0, hb0⟩ := mem_map_flagRule_bounds hr1
        have hr0rec : r0 ∈ records :=
          (List.perm_insertionSort timeKeyLe records).mem_iff.mp
            (List.mem_filter.mp hr0).1
        obtain ⟨hs, he⟩ := hinit r0 hr0rec
        constructor
        · rw [hb4.1, hb3.1, hb2.1, hb1.1, hb0.1, hs]
        · rw [hb4.2, hb3.2, hb2.2, hb1.2, hb0.2, he]

/-- A too-short NOAA-15 record with undefined bounds, for the C9 witness. -/
def uRecShort : Record :=
  { platform := "NOAA-15", start_time := wT0 + 40 * 60 * 1000000000,
    end_time := wT0 + 50 * 60 * 1000000000, along_track := 10,
    filename := "u3" }

def wOut9 : List Record :=
  [{ uRecOk with overlap_free_start := some 0, overlap_free_end := some 99 },
   { uRecShort with global_quality_flag := QualityFlags.TOO_SHORT }]

theorem claim_C9_bounds_only_ok_witness :
    get_metadata defaultConfig TIME_COVERAGE cAcq [uRecOk, uRecShort] =
      Except.ok wOut9 ∧
    (∀ q ∈ wOut9, ¬ q.global_quality_flag = QualityFlags.OK →
      q.overlap_free_start = none ∧ q.overlap_free_end = none) :=
  ⟨rfl,
   claim_C9_bounds_only_ok defaultConfig TIME_COVERAGE cAcq [uRecOk, uRecShort]
     wOut9 rfl (by decide)⟩

end PygacFdr
